import Mathlib

/-!
Shallow embedding of the Polygon Panorama Discovery Engine of the flipakt
repository (the `MapView` component): the probe client `checkPanoramaExists`,
its cache, the `rateLimiter` closure, the ray-casting `pointInPolygon` test,
the grid generator `generateComprehensivePointsInPolygon`, and the
`findPanoramas` orchestrator.  JavaScript numbers are modelled as `ℚ`
(with `Option ℚ` where the source distinguishes non-numeric / `NaN` values),
the string cache keys and dedup keys as integer pairs obtained by
6-decimal rounding, and the asynchronous probe calls as an explicit oracle
`ℕ → NetOutcome` giving the outcome of each live network call in issue order.
-/

set_option maxRecDepth 4000
set_option linter.unusedVariables false

section
attribute [local semireducible] Rat.mul Rat.add Rat.sub Rat.inv

/-- The `info` part of `IPanoramaExistsOutput`: panorama longitude, latitude
and capture date.  `none` in a coordinate models a non-numeric JSON value
(the source guards with `typeof lon !== 'number'`); the date only matters
by presence here. -/
structure PanoInfo where
  lon : Option ℚ
  lat : Option ℚ
  date : Option ℕ
deriving DecidableEq

/-- Model of `IPanoramaExistsOutput` with fields `exists` and optional `info`. -/
structure PanoOutput where
  pexists : Bool
  info : Option PanoInfo
deriving DecidableEq

/-- Outcome of one live call to the external `Panorama.panoramaExists`
endpoint raced against the 300 ms timeout: either the promise resolved
with an output, or it timed out / rejected / threw. -/
inductive NetOutcome where
  | ok (out : PanoOutput)
  | err
deriving DecidableEq

/-- Floor of a rational, computed on the normalised numerator/denominator so
that it reduces inside the kernel. -/
def qfloor (q : ℚ) : ℤ :=
  Int.fdiv q.num q.den

/-- The value `q.toFixed(6)` as an integer: the source builds cache and dedup keys from
6-decimal-rounded decimal strings (ECMA `toFixed` rounds half towards `+∞`,
i.e. `⌊x·10^6 + 1/2⌋`); two such strings are equal exactly when the rounded
integers are equal. -/
def round6 (q : ℚ) : ℤ :=
  qfloor (q * 1000000 + 1 / 2)

/-- The cache key `lon.toFixed(6) + "," + lat.toFixed(6) + "," + radius`. -/
def cacheKey (lon lat radius : ℚ) : ℤ × ℤ × ℚ :=
  (round6 lon, round6 lat, radius)

/-- The `panoramaCache` map: association list from keys to the cached
`IPanoramaExistsOutput | null` value (`none` = cached `null`, i.e. a cached
failure). -/
def Cache := List ((ℤ × ℤ × ℚ) × Option PanoOutput)

instance : DecidableEq Cache := by
  unfold Cache
  infer_instance

/-- The `cacheKey in panoramaCache` lookup. -/
def cacheFind (c : Cache) (k : ℤ × ℤ × ℚ) : Option (Option PanoOutput) :=
  match c with
  | [] => none
  | (k2, v) :: rest => if k2 = k then some v else cacheFind rest k

/-- The write `panoramaCache[cacheKey] = v`; prepending overwrites for `cacheFind`. -/
def cacheInsert (c : Cache) (k : ℤ × ℤ × ℚ) (v : Option PanoOutput) : Cache :=
  (k, v) :: c

/-- Model of `checkPanoramaExists(lon, lat, apiKey, radius)`.

Inputs: the current cache, the two coordinates (`none` models a non-number /
`NaN` argument), whether a (truthy) `apiKey` string was supplied, the radius,
whether the loaded SDK exposes `Panorama.panoramaExists`, and the outcome of
the live call should one be issued.

Returns the function result, the cache afterwards, and whether the call went
past the cache to external I/O (SDK load plus existence request).

Mirrors the source exactly:
* validation rejects only non-numbers, `NaN` and a missing `apiKey` —
  there is no range check on `lon`/`lat` here;
* a cache hit returns the stored value (even a cached `null`) with no I/O;
* a missing SDK entry point returns `null` without caching;
* a resolved call is cached and returned; a timeout or thrown error caches
  `null` and returns `null`;
* no clock is consulted: cache entries carry no insertion time and are
  never expired. -/
def checkPanoramaExists (cache : Cache) (lon lat : Option ℚ) (hasApiKey : Bool)
    (radius : ℚ) (sdkAvailable : Bool) (net : NetOutcome) :
    Option PanoOutput × Cache × Bool :=
  match lon, lat with
  | some lo, some la =>
    if hasApiKey = false then (none, cache, false)
    else
      let k := cacheKey lo la radius
      match cacheFind cache k with
      | some v => (v, cache, false)
      | none =>
        if sdkAvailable = false then (none, cache, true)
        else
          match net with
          | NetOutcome.ok out => (some out, cacheInsert cache k (some out), true)
          | NetOutcome.err => (none, cacheInsert cache k none, true)
  | _, _ => (none, cache, false)

/-- Result of running `checkPanoramaExists` twice in sequence. -/
structure TwoProbeRun where
  r1 : Option PanoOutput
  r2 : Option PanoOutput
  net1 : Bool
  net2 : Bool
deriving DecidableEq

/-- Two successive probe calls for the same `(lon, lat, radius)` starting from
an empty cache, with wall-clock call times `t1` and `t2` (milliseconds)
attached.  The source consults no clock in `checkPanoramaExists`, so the
times cannot influence the run; they are carried so that statements about
cache-entry age can be made. -/
def probeTwice (t1 t2 : ℕ) (lon lat : Option ℚ) (hasApiKey : Bool) (radius : ℚ)
    (sdkAvailable : Bool) (net1 net2 : NetOutcome) : TwoProbeRun :=
  let s1 := checkPanoramaExists [] lon lat hasApiKey radius sdkAvailable net1
  let s2 := checkPanoramaExists s1.2.1 lon lat hasApiKey radius sdkAvailable net2
  { r1 := s1.1, r2 := s2.1, net1 := s1.2.2, net2 := s2.2.2 }

/-- One grant of the `rateLimiter` closure: called at time `now` with the
previous grant at `last`, the promise resolves after
`Math.max(0, 200 - (now - last))` milliseconds (truncated `ℕ` subtraction
realises the `max 0`); the resolution time is the new `last`. -/
def rateLimiterGrant (last now : ℕ) : ℕ :=
  now + (200 - (now - last))

/-- The ray-casting `pointInPolygon([x, y], polygon)` test.  The source loops
`for (let i = 0, j = polygon.length - 1; i < polygon.length; j = i++)`, so the
edge pairs `(polygon[i], polygon[j])` are exactly the entries of
`polygon.zip (last :: dropLast polygon)`; `inside` is toggled when the
horizontal ray crosses the edge.  The `!==` on the two boolean comparisons is
propositional inequality; the crossing abscissa uses exact division (the
guard makes the denominator nonzero). -/
def pointInPolygon (p : ℚ × ℚ) (polygon : List (ℚ × ℚ)) : Bool :=
  match polygon with
  | [] => false
  | v :: _ =>
    (polygon.zip (polygon.getLastD v :: polygon.dropLast)).foldl
      (fun inside e =>
        if ((e.1.2 > p.2) ≠ (e.2.2 > p.2)) ∧
            p.1 < (e.2.1 - e.1.1) * (p.2 - e.1.2) / (e.2.2 - e.1.2) + e.1.1
        then !inside else inside)
      false

/-- Inner west→east scan of `generateComprehensivePointsInPolygon`:
`for (let lon = west + stepLon / 2; lon <= east; lon += stepLon)`.
`fuel` bounds the number of loop iterations the model is willing to unfold;
`none` means the fuel ran out while the source loop was still running (for a
non-positive `stepLon` no fuel suffices, mirroring non-termination).  On
`some (grid, capped)`, `capped = true` records that the `maxPoints` cap was
reached and the source did an early `return grid` out of both loops. -/
def scanRow (polygon : List (ℚ × ℚ)) (lat east stepLon : ℚ) (maxPoints : ℕ) :
    ℕ → ℚ → List (ℚ × ℚ) → Option (List (ℚ × ℚ) × Bool)
  | 0, _, _ => none
  | fuel + 1, lon, grid =>
    if lon ≤ east then
      if pointInPolygon (lon, lat) polygon then
        let grid2 := grid ++ [(lon, lat)]
        if maxPoints ≤ grid2.length then some (grid2, true)
        else scanRow polygon lat east stepLon maxPoints fuel (lon + stepLon) grid2
      else scanRow polygon lat east stepLon maxPoints fuel (lon + stepLon) grid
    else some (grid, false)

/-- Outer south→north scan of `generateComprehensivePointsInPolygon`:
`for (let lat = south + stepLat / 2; lat <= north; lat += stepLat)`; each row
runs `scanRow` from `west + stepLon / 2` with its own fuel `innerFuel`.  A
`capped` row propagates the source's early `return grid`. -/
def scanRows (polygon : List (ℚ × ℚ)) (north west east stepLat stepLon : ℚ)
    (maxPoints innerFuel : ℕ) : ℕ → ℚ → List (ℚ × ℚ) → Option (List (ℚ × ℚ))
  | 0, _, _ => none
  | fuel + 1, lat, grid =>
    if lat ≤ north then
      match scanRow polygon lat east stepLon maxPoints innerFuel (west + stepLon / 2) grid with
      | none => none
      | some (grid2, true) => some grid2
      | some (grid2, false) =>
        scanRows polygon north west east stepLat stepLon maxPoints innerFuel fuel
          (lat + stepLat) grid2
    else some grid

/-- Model of `generateComprehensivePointsInPolygon(polygonCoords, west, south, east,
north, spacingMeters, maxPoints)`.

The source sets `metersPerDegLat = 111000` and
`metersPerDegLon = 111000 * Math.cos(centerLat * Math.PI / 180)` with
`centerLat = (south + north) / 2`; the cosine factor is transcendental, so
`mPerDegLon` is taken as a parameter here (theorems quantify over it, and the
positivity of `111000 * cos` for center latitudes strictly inside ±90° is
proved separately over `ℝ`).  `stepLon = spacingMeters / mPerDegLon`,
`stepLat = spacingMeters / 111000`, and the two nested scans run from the
south-west corner.  `fuel`/`innerFuel` bound the unfolding of the two source
loops; `none` means they were exhausted. -/
def generateComprehensivePointsInPolygon (polygonCoords : List (ℚ × ℚ))
    (west south east north : ℚ) (mPerDegLon : ℚ) (spacingMeters : ℚ)
    (maxPoints : ℕ) (fuel innerFuel : ℕ) : Option (List (ℚ × ℚ)) :=
  let stepLon := spacingMeters / mPerDegLon
  let stepLat := spacingMeters / 111000
  scanRows polygonCoords north west east stepLat stepLon maxPoints innerFuel fuel
    (south + stepLat / 2) []

/-- A unit square used in concrete runs. -/
def unitSquare : List (ℚ × ℚ) :=
  [(0, 0), (1, 0), (1, 1), (0, 1)]

/-- The dedup key `lat.toFixed(6) + "_" + lon.toFixed(6)` of a panorama
returned by a probe (note the source puts the latitude first). -/
def dedupKey (lat lon : ℚ) : ℤ × ℤ :=
  (round6 lat, round6 lon)

/-- The `isTooClose` proximity test of the orchestrator: some previously
accepted panorama is within squared-degree distance `0.00000001` (`1e-8`,
about 10 m). -/
def tooClose (lon lat : ℚ) (found : List (ℚ × ℚ)) : Bool :=
  found.any fun e =>
    decide ((lon - e.1) * (lon - e.1) + (lat - e.2) * (lat - e.2) < 1 / 100000000)

/-- One settled entry of the `Promise.allSettled` array: the fan-out task for
a grid point either fulfilled with the `checkPanoramaExists` result (which is
`null` on any probe failure), or rejected. -/
inductive Settled where
  | fulfilled (point : ℚ × ℚ) (result : Option PanoOutput)
  | rejected
deriving DecidableEq

/-- The mutable aggregation state of the orchestrator's result loop: the
module-level `seen` set of dedup keys, the `foundPanoramas` list of accepted
coordinates, and the `foundCount` counter. -/
structure ProcState where
  seen : List (ℤ × ℤ)
  found : List (ℚ × ℚ)
  foundCount : ℕ
deriving DecidableEq

/-- One iteration of the `for (const promiseResult of allResults)` loop in
`findPanoramas`, mirroring the source's chain of `continue` guards:
rejected entries and `null` results are skipped; so are results without
`exists`/`info`, with non-numeric or out-of-range returned coordinates, and
returned coordinates outside the polygon; then the exact dedup-key check
(the key is recorded and `foundCount` incremented before the proximity
check), and finally the `isTooClose` proximity check; survivors are appended
to `foundPanoramas`. -/
def processOne (polygon : List (ℚ × ℚ)) (st : ProcState) : Settled → ProcState
  | Settled.rejected => st
  | Settled.fulfilled _ none => st
  | Settled.fulfilled _ (some ⟨false, _⟩) => st
  | Settled.fulfilled _ (some ⟨true, none⟩) => st
  | Settled.fulfilled _ (some ⟨true, some info⟩) =>
    match info.lon, info.lat with
    | some lon, some lat =>
      if lon < -180 ∨ lon > 180 ∨ lat < -90 ∨ lat > 90 then st
      else if pointInPolygon (lon, lat) polygon = false then st
      else if dedupKey lat lon ∈ st.seen then st
      else
        let st2 : ProcState :=
          { st with seen := dedupKey lat lon :: st.seen, foundCount := st.foundCount + 1 }
        if tooClose lon lat st.found then st2
        else { st2 with found := st2.found ++ [(lon, lat)] }
    | _, _ => st

/-- The whole result-aggregation loop of `findPanoramas`, starting from the
cleared session state (`seen.clear()` ran at the top of the search). -/
def processResults (polygon : List (ℚ × ℚ)) (settled : List Settled) : ProcState :=
  settled.foldl (processOne polygon) { seen := [], found := [], foundCount := 0 }

/-- The probe fan-out
`Promise.allSettled(gridPoints.map(p => checkPanoramaExists(p.lon, p.lat, API_KEY, searchRadius)))`:
one `checkPanoramaExists` task per grid point.  The cache is threaded through
the calls; `calls` counts the live (non-cached) external calls so far and
indexes the oracle `net`.  `checkPanoramaExists` catches every failure, so
every task fulfils.  Returns the settled array, the final cache, and the
total number of live calls. -/
def probePhase (hasApiKey sdkAvailable : Bool) (radius : ℚ) (net : ℕ → NetOutcome) :
    List (ℚ × ℚ) → Cache → ℕ → List Settled × Cache × ℕ
  | [], cache, calls => ([], cache, calls)
  | p :: rest, cache, calls =>
    let s := checkPanoramaExists cache (some p.1) (some p.2) hasApiKey radius
      sdkAvailable (net calls)
    let r := probePhase hasApiKey sdkAvailable radius net rest s.2.1
      (if s.2.2 then calls + 1 else calls)
    (Settled.fulfilled p s.1 :: r.1, r.2)

/-- How a `findPanoramas` invocation ends: the two early `return`s, or normal
completion with the accepted panoramas and the `foundCount` counter. -/
inductive SearchOutcome where
  | abortedNoLayerSource
  | abortedNoApiKey
  | completed (found : List (ℚ × ℚ)) (foundCount : ℕ)
deriving DecidableEq

/-- A finished `findPanoramas` run: its outcome, the number of live external
calls it made, and the pacing delay (ms) the code imposed before each live
call — per the source there is none: the requests are all created inside one
synchronous `gridPoints.map(...)` with no awaited delay in between (the
`rateLimiter` closure exists in the module but has no call site), so every
recorded delay is `0`. -/
structure SearchRun where
  outcome : SearchOutcome
  liveCalls : ℕ
  issueDelays : List ℕ
deriving DecidableEq

/-- The `findPanoramas` orchestrator.

Control flow mirrors the source in order: (1) `if (!source) return` — abort
when the panorama layer source is unavailable; (2) clear the `seen` set
(hence `processResults` starts from the empty state); (3)
`if (!API_KEY) return` — abort before any gridding or network activity;
(4) generate the comprehensive grid with spacing 15 m capped at 4000 points
(`none` when the modelling fuel for the grid loops runs out); (5) fire all
probes at once with `searchRadius = 25`; (6) aggregate the settled results.
There is no check anywhere that the polygon has at least 3 vertices. -/
def findPanoramas (sourceAvailable hasApiKey : Bool) (polygonCoords : List (ℚ × ℚ))
    (west south east north : ℚ) (mPerDegLon : ℚ) (fuel innerFuel : ℕ)
    (cache : Cache) (sdkAvailable : Bool) (net : ℕ → NetOutcome) :
    Option SearchRun :=
  if sourceAvailable = false then
    some { outcome := SearchOutcome.abortedNoLayerSource, liveCalls := 0, issueDelays := [] }
  else if hasApiKey = false then
    some { outcome := SearchOutcome.abortedNoApiKey, liveCalls := 0, issueDelays := [] }
  else
    match generateComprehensivePointsInPolygon polygonCoords west south east north
      mPerDegLon 15 4000 fuel innerFuel with
    | none => none
    | some gridPoints =>
      let r := probePhase true sdkAvailable 25 net gridPoints cache 0
      let st := processResults polygonCoords r.1
      some { outcome := SearchOutcome.completed st.found st.foundCount,
             liveCalls := r.2.2,
             issueDelays := List.replicate r.2.2 0 }

/-- Separation of two accepted panoramas: distinct dedup keys and squared
degree distance at least the `1e-8` proximity threshold. -/
def farApart (a b : ℚ × ℚ) : Prop :=
  dedupKey a.2 a.1 ≠ dedupKey b.2 b.1 ∧
  ¬((a.1 - b.1) * (a.1 - b.1) + (a.2 - b.2) * (a.2 - b.2) < 1 / 100000000)

/-- A small square polygon whose 15 m grid has exactly one point. -/
def sqSmall : List (ℚ × ℚ) :=
  [(0, 0), (1/7000, 0), (1/7000, 1/7000), (0, 1/7000)]

/-- A probe response reporting a panorama at the single `sqSmall` grid point. -/
def outSmall : PanoOutput :=
  { pexists := true,
    info := some { lon := some (1/14800), lat := some (1/14800), date := none } }

/-- A square polygon whose 15 m grid (with `mPerDegLon = 666000`) has exactly
six points in a single row. -/
def sq6 : List (ℚ × ℚ) :=
  [(0, 0), (1/7400, 0), (1/7400, 1/7400), (0, 1/7400)]

/-- A degenerate two-vertex polygon. -/
def degeneratePoly : List (ℚ × ℚ) :=
  [(0, 0), (1/100000, 1/100000)]

/-- A distinguishable pair of probe responses used to exhibit the cache
returning a stale entry. -/
def outFirst : PanoOutput :=
  { pexists := true, info := some { lon := some 14, lat := some 50, date := some 1 } }

/-- See `outFirst`. -/
def outSecond : PanoOutput :=
  { pexists := true, info := some { lon := some 14, lat := some 50, date := some 2 } }

/-- Every iteration of the aggregation loop either leaves the state unchanged,
or (new dedup key, but too close to an accepted panorama) only records the key
and bumps `foundCount`, or accepts the reported coordinates: records the key,
bumps the counter and appends the coordinates — in the last case the
coordinates passed the polygon re-check, the exact-key check and the
proximity check. -/
theorem processOne_spec (polygon : List (ℚ × ℚ)) (st : ProcState) (s : Settled) :
    processOne polygon st s = st ∨
    (∃ lon lat : ℚ,
      dedupKey lat lon ∉ st.seen ∧
      processOne polygon st s =
        { seen := dedupKey lat lon :: st.seen, found := st.found,
          foundCount := st.foundCount + 1 }) ∨
    (∃ lon lat : ℚ,
      pointInPolygon (lon, lat) polygon = true ∧
      dedupKey lat lon ∉ st.seen ∧
      tooClose lon lat st.found = false ∧
      processOne polygon st s =
        { seen := dedupKey lat lon :: st.seen, found := st.found ++ [(lon, lat)],
          foundCount := st.foundCount + 1 }) := by
  rcases s with ⟨pt, res⟩ | _
  · rcases res with _ | ⟨b, oinfo⟩
    · exact Or.inl rfl
    · rcases b with _ | _
      · exact Or.inl rfl
      · rcases oinfo with _ | ⟨olon, olat, odate⟩
        · exact Or.inl rfl
        · rcases olon with _ | lon <;> rcases olat with _ | lat
          · exact Or.inl rfl
          · exact Or.inl rfl
          · exact Or.inl rfl
          · simp only [processOne]
            split_ifs with hrange hpip hkey hclose
            · exact Or.inl rfl
            · exact Or.inl rfl
            · exact Or.inl rfl
            · exact Or.inr (Or.inl ⟨lon, lat, hkey, rfl⟩)
            · refine Or.inr (Or.inr ⟨lon, lat, ?_, hkey, ?_, rfl⟩)
              · simpa using hpip
              · simpa using hclose
  · exact Or.inl rfl

/-- Any property of the aggregation state preserved by `processOne` holds
after folding it over any settled list. -/
theorem foldl_processOne_inv (polygon : List (ℚ × ℚ)) (P : ProcState → Prop)
    (hstep : ∀ st s, P st → P (processOne polygon st s)) :
    ∀ (l : List Settled) (st : ProcState), P st → P (l.foldl (processOne polygon) st) := by
  intro l
  induction l with
  | nil => exact fun st h => h
  | cons x xs ih => exact fun st h => ih _ (hstep _ _ h)

/-- The step `processOne` preserves the dedup invariant: every accepted panorama's key
is in `seen`, and accepted panoramas are pairwise `farApart`. -/
theorem processOne_dedup_step (polygon : List (ℚ × ℚ)) (st : ProcState) (s : Settled)
    (h : (∀ p ∈ st.found, dedupKey p.2 p.1 ∈ st.seen) ∧ List.Pairwise farApart st.found) :
    (∀ p ∈ (processOne polygon st s).found,
        dedupKey p.2 p.1 ∈ (processOne polygon st s).seen) ∧
    List.Pairwise farApart (processOne polygon st s).found := by
  obtain ⟨h1, h2⟩ := h
  rcases processOne_spec polygon st s with heq | ⟨lon, lat, hkey, heq⟩ |
    ⟨lon, lat, hpip, hkey, hclose, heq⟩
  · rw [heq]; exact ⟨h1, h2⟩
  · rw [heq]
    exact ⟨fun p hp => List.mem_cons_of_mem _ (h1 p hp), h2⟩
  · rw [heq]
    have hfar : ∀ a ∈ st.found, farApart a (lon, lat) := by
      intro a ha
      have hdist : ∀ e ∈ st.found,
          ¬((lon - e.1) * (lon - e.1) + (lat - e.2) * (lat - e.2) < 1 / 100000000) := by
        intro e he
        have := List.any_eq_false.mp hclose e he
        simpa using this
      refine ⟨fun hcontra => hkey ?_, ?_⟩
      · have := h1 a ha
        rw [hcontra] at this
        exact this
      · have hsym : (a.1 - lon) * (a.1 - lon) + (a.2 - lat) * (a.2 - lat) =
            (lon - a.1) * (lon - a.1) + (lat - a.2) * (lat - a.2) := by ring
        show ¬((a.1 - (lon, lat).1) * _ + _ < _)
        simpa [hsym] using hdist a ha
    constructor
    · intro p hp
      rcases List.mem_append.mp hp with hin | hin
      · exact List.mem_cons_of_mem _ (h1 p hin)
      · have hp2 : p = (lon, lat) := by simpa using hin
        subst hp2
        exact List.mem_cons_self _ _
    · rw [List.pairwise_append]
      refine ⟨h2, List.pairwise_singleton _ _, ?_⟩
      intro a ha b hb
      have hb2 : b = (lon, lat) := by simpa using hb
      subst hb2
      exact hfar a ha

/-- C1: for every completed search session, the final accepted sequence of
panorama records contains no two records with equal dedup keys
(6-decimal-rounded lat_lon strings) and no two records whose squared-degree
distance is below the proximity threshold `1e-8`; candidates failing either
check were discarded by the aggregation loop. -/
theorem C1_completed_search_dedup (sourceAvailable hasApiKey : Bool)
    (polygonCoords : List (ℚ × ℚ)) (west south east north mPerDegLon : ℚ)
    (fuel innerFuel : ℕ) (cache : Cache) (sdkAvailable : Bool) (net : ℕ → NetOutcome)
    (run : SearchRun) (found : List (ℚ × ℚ)) (foundCount : ℕ)
    (hrun : findPanoramas sourceAvailable hasApiKey polygonCoords west south east north
      mPerDegLon fuel innerFuel cache sdkAvailable net = some run)
    (hout : run.outcome = SearchOutcome.completed found foundCount) :
    List.Pairwise farApart found := by
  unfold findPanoramas at hrun
  split_ifs at hrun with h1 h2
  · obtain rfl := Option.some.inj hrun
    simp at hout
  · obtain rfl := Option.some.inj hrun
    simp at hout
  · split at hrun
    · exact absurd hrun (by simp)
    · obtain rfl := Option.some.inj hrun
      simp only at hout
      injection hout with hf hc
      subst hf
      exact (foldl_processOne_inv polygonCoords
        (fun st => (∀ p ∈ st.found, dedupKey p.2 p.1 ∈ st.seen) ∧
          List.Pairwise farApart st.found)
        (processOne_dedup_step polygonCoords) _ _ ⟨by simp, List.Pairwise.nil⟩).2

/-- Witness for C1: a concrete completed one-point search whose accepted list
is pairwise separated. -/
theorem C1_completed_search_dedup_witness :
    List.Pairwise farApart [((1 : ℚ)/14800, (1 : ℚ)/14800)] :=
  C1_completed_search_dedup true true sqSmall 0 0 (1/7000) (1/7000) 111000 5 5 [] true
    (fun _ => NetOutcome.ok outSmall)
    { outcome := SearchOutcome.completed [(1/14800, 1/14800)] 1,
      liveCalls := 1, issueDelays := [0] }
    [(1/14800, 1/14800)] 1 (by decide) rfl

/-- The step `processOne` preserves "every accepted panorama lies inside the polygon". -/
theorem processOne_polygon_step (polygon : List (ℚ × ℚ)) (st : ProcState) (s : Settled)
    (h : ∀ p ∈ st.found, pointInPolygon p polygon = true) :
    ∀ p ∈ (processOne polygon st s).found, pointInPolygon p polygon = true := by
  rcases processOne_spec polygon st s with heq | ⟨lon, lat, hkey, heq⟩ |
    ⟨lon, lat, hpip, hkey, hclose, heq⟩
  · rw [heq]; exact h
  · rw [heq]; exact h
  · rw [heq]
    intro p hp
    rcases List.mem_append.mp hp with hin | hin
    · exact h p hin
    · have hp2 : p = (lon, lat) := by simpa using hin
      subst hp2
      exact hpip

/-- C2: every panorama record accepted into a search's final result set has
its returned coordinates (those reported by the probe response, which are
what the aggregation loop stores) inside the originating polygon according to
`pointInPolygon`; probe hits whose returned coordinates fall outside were
discarded. -/
theorem C2_accepted_inside_polygon (sourceAvailable hasApiKey : Bool)
    (polygonCoords : List (ℚ × ℚ)) (west south east north mPerDegLon : ℚ)
    (fuel innerFuel : ℕ) (cache : Cache) (sdkAvailable : Bool) (net : ℕ → NetOutcome)
    (run : SearchRun) (found : List (ℚ × ℚ)) (foundCount : ℕ)
    (hrun : findPanoramas sourceAvailable hasApiKey polygonCoords west south east north
      mPerDegLon fuel innerFuel cache sdkAvailable net = some run)
    (hout : run.outcome = SearchOutcome.completed found foundCount) :
    ∀ p ∈ found, pointInPolygon p polygonCoords = true := by
  unfold findPanoramas at hrun
  split_ifs at hrun with h1 h2
  · obtain rfl := Option.some.inj hrun
    simp at hout
  · obtain rfl := Option.some.inj hrun
    simp at hout
  · split at hrun
    · exact absurd hrun (by simp)
    · obtain rfl := Option.some.inj hrun
      simp only at hout
      injection hout with hf hc
      subst hf
      exact foldl_processOne_inv polygonCoords
        (fun st => ∀ p ∈ st.found, pointInPolygon p polygonCoords = true)
        (processOne_polygon_step polygonCoords) _ _ (by simp)

/-- Witness for C2: in the concrete one-point search the accepted coordinates
pass the polygon test. -/
theorem C2_accepted_inside_polygon_witness :
    pointInPolygon ((1 : ℚ)/14800, (1 : ℚ)/14800) sqSmall = true :=
  C2_accepted_inside_polygon true true sqSmall 0 0 (1/7000) (1/7000) 111000 5 5 [] true
    (fun _ => NetOutcome.ok outSmall)
    { outcome := SearchOutcome.completed [(1/14800, 1/14800)] 1,
      liveCalls := 1, issueDelays := [0] }
    [(1/14800, 1/14800)] 1 (by decide) rfl
    (1/14800, 1/14800) (by decide)

/-- C8: a single failed probe never aborts the batch.  A probe failure
surfaces as a fulfilled task with a `null` result (timeouts, network errors,
malformed responses and thrown errors are all caught inside
`checkPanoramaExists`), and the aggregation loop also skips rejected entries;
removing either kind of entry from the settled array leaves the aggregated
result unchanged, and the fan-out settles one entry for every grid point
(all-settled semantics: the batch result has exactly one settled entry per
task, never fewer). -/
theorem C8_probe_failure_never_aborts (polygon : List (ℚ × ℚ)) (pt : ℚ × ℚ)
    (l1 l2 : List Settled) :
    processResults polygon (l1 ++ Settled.fulfilled pt none :: l2) =
      processResults polygon (l1 ++ l2) ∧
    processResults polygon (l1 ++ Settled.rejected :: l2) =
      processResults polygon (l1 ++ l2) ∧
    ∀ (hasApiKey sdkAvailable : Bool) (radius : ℚ) (net : ℕ → NetOutcome)
      (grid : List (ℚ × ℚ)) (cache : Cache) (calls : ℕ),
      (probePhase hasApiKey sdkAvailable radius net grid cache calls).1.length =
        grid.length := by
  have hskip : ∀ st : ProcState, processOne polygon st (Settled.fulfilled pt none) = st :=
    fun st => rfl
  have hrej : ∀ st : ProcState, processOne polygon st Settled.rejected = st :=
    fun st => rfl
  refine ⟨?_, ?_, ?_⟩
  · simp only [processResults, List.foldl_append, List.foldl_cons, hskip]
  · simp only [processResults, List.foldl_append, List.foldl_cons, hrej]
  · intro hasApiKey sdkAvailable radius net grid
    induction grid with
    | nil => intro cache calls; rfl
    | cons p rest ih =>
      intro cache calls
      simp only [probePhase, List.length_cons]
      rw [ih]

/-- Counterexample to C3: the probe's input validation does not check
coordinate ranges.  For `lon = 200` (outside `[-180, 180]`) with a valid
key and an empty cache, `checkPanoramaExists` proceeds past the cache to
external I/O (third component `true`) and returns whatever the service
answered, instead of failing fast without a network call. -/
theorem C3_counterexample :
    checkPanoramaExists [] (some 200) (some 0) true 150 true
      (NetOutcome.ok outFirst) =
      (some outFirst, [(cacheKey 200 0 150, some outFirst)], true) ∧
    (200 : ℚ) > 180 := by
  decide

/-- C3 amended: `checkPanoramaExists` fails fast — returns `null` with no
network call and no cache write — exactly on non-numeric (`NaN` /
non-`number`) coordinates or a missing `apiKey`; finite out-of-range
coordinates are not rejected by it (the range check happens later, on the
coordinates returned in responses). -/
theorem C3_fail_fast_on_invalid_input (cache : Cache) (lon lat : Option ℚ)
    (hasApiKey : Bool) (radius : ℚ) (sdkAvailable : Bool) (net : NetOutcome)
    (h : lon = none ∨ lat = none ∨ hasApiKey = false) :
    checkPanoramaExists cache lon lat hasApiKey radius sdkAvailable net =
      (none, cache, false) := by
  rcases h with h | h | h
  · subst h
    cases lat <;> rfl
  · subst h
    cases lon <;> rfl
  · subst h
    cases lon <;> cases lat <;> rfl

/-- Witness for C3 amended: a `NaN` longitude fails fast. -/
theorem C3_fail_fast_on_invalid_input_witness :
    checkPanoramaExists [] none (some 0) true 150 true NetOutcome.err =
      (none, [], false) :=
  C3_fail_fast_on_invalid_input [] none (some 0) true 150 true NetOutcome.err
    (Or.inl rfl)

/-- Counterexample to C4: the cache has no TTL.  The first call at `t = 0`
caches `outFirst`; the second call for the same normalized key happens
1 800 001 ms later — past the claimed 30-minute (1 800 000 ms) TTL — while
the service would now answer `outSecond`; yet it makes no network call
(`net2 = false`) and returns the stale `outFirst` instead of a fresh result. -/
theorem C4_counterexample :
    probeTwice 0 1800001 (some 14) (some 50) true 25 true
      (NetOutcome.ok outFirst) (NetOutcome.ok outSecond) =
      { r1 := some outFirst, r2 := some outFirst, net1 := true, net2 := false } ∧
    outFirst ≠ outSecond ∧ 1800000 < 1800001 - 0 := by
  decide

/-- C4 amended: a second probe with the same normalized
`(lon.toFixed(6), lat.toFixed(6), radius)` key performs zero network calls
and returns the first call's result — regardless of how much time has
passed, because cache entries are never expired (the code has no TTL). -/
theorem C4_cache_hit_no_ttl (t1 t2 : ℕ) (lo la radius : ℚ) (net1 net2 : NetOutcome) :
    (probeTwice t1 t2 (some lo) (some la) true radius true net1 net2).r2 =
      (probeTwice t1 t2 (some lo) (some la) true radius true net1 net2).r1 ∧
    (probeTwice t1 t2 (some lo) (some la) true radius true net1 net2).net1 = true ∧
    (probeTwice t1 t2 (some lo) (some la) true radius true net1 net2).net2 = false := by
  cases net1 <;>
    simp [probeTwice, checkPanoramaExists, cacheFind, cacheInsert]

/-- Counterexample to C5: a degenerate polygon does not make discovery fail.
With the layer source available and a credential configured, a two-vertex
polygon runs to normal completion (with an empty result set — no grid point
ever lies "inside" it), instead of aborting. -/
theorem C5_counterexample :
    findPanoramas true true degeneratePoly 0 0 (1/100000) (1/100000) 111000 5 5 [] true
      (fun _ => NetOutcome.err) =
      some { outcome := SearchOutcome.completed [] 0, liveCalls := 0, issueDelays := [] } ∧
    degeneratePoly.length < 3 := by
  decide

/-- C5 amended: `findPanoramas` aborts only when the panorama layer source is
unavailable or no credential is configured; there is no degenerate-polygon
check.  The missing-credential abort is immediate: it happens before
gridding (the result does not depend on the grid fuel, i.e. it is reached
without evaluating the grid loops) and issues zero network calls. -/
theorem C5_abort_conditions (polygonCoords : List (ℚ × ℚ))
    (west south east north mPerDegLon : ℚ) (fuel innerFuel : ℕ) (cache : Cache)
    (sdkAvailable : Bool) (net : ℕ → NetOutcome) :
    (∀ fuel2 innerFuel2 : ℕ,
      findPanoramas true false polygonCoords west south east north mPerDegLon
        fuel2 innerFuel2 cache sdkAvailable net =
      some { outcome := SearchOutcome.abortedNoApiKey, liveCalls := 0,
             issueDelays := [] }) ∧
    (∀ run : SearchRun,
      findPanoramas true true polygonCoords west south east north mPerDegLon
        fuel innerFuel cache sdkAvailable net = some run →
      ∃ found foundCount, run.outcome = SearchOutcome.completed found foundCount) := by
  constructor
  · intro fuel2 innerFuel2
    rfl
  · intro run hrun
    unfold findPanoramas at hrun
    rw [if_neg (by simp)] at hrun
    rw [if_neg (by simp)] at hrun
    split at hrun
    · exact absurd hrun (by simp)
    · obtain rfl := Option.some.inj hrun
      exact ⟨_, _, rfl⟩

/-- Witness for C5 amended: the abort-free completion of the degenerate-run
instantiates the second conjunct. -/
theorem C5_abort_conditions_witness :
    ∃ found foundCount,
      ({ outcome := SearchOutcome.completed [] 0, liveCalls := 0,
         issueDelays := [] } : SearchRun).outcome =
        SearchOutcome.completed found foundCount :=
  (C5_abort_conditions degeneratePoly 0 0 (1/100000) (1/100000) 111000 5 5 [] true
    (fun _ => NetOutcome.err)).2 _ (by decide)

/-- Counterexample to C9: probes are fired in one unbounded burst.  On a
six-point grid with an empty cache, all six live external calls are issued
with zero imposed delay between them — more than 5 requests within any
one-second window — because the fan-out maps `checkPanoramaExists` over all
grid points at once and nothing on that path ever calls the rate limiter. -/
theorem C9_counterexample :
    findPanoramas true true sq6 0 0 (1/7400) (1/7400) 666000 5 10 [] true
      (fun _ => NetOutcome.err) =
      some { outcome := SearchOutcome.completed [] 0, liveCalls := 6,
             issueDelays := [0, 0, 0, 0, 0, 0] } ∧
    5 < 6 := by
  decide

/-- C9 amended: the module defines a fixed-delay `rateLimiter` that, had it
been used, would space consecutive grants at least 200 ms apart (≤ 5
requests/second); but the discovery path never invokes it, so every live
probe call is issued with zero imposed delay. -/
theorem C9_rate_limiter_unused :
    (∀ last now : ℕ, last ≤ now → last + 200 ≤ rateLimiterGrant last now) ∧
    (∀ (sourceAvailable hasApiKey : Bool) (polygonCoords : List (ℚ × ℚ))
      (west south east north mPerDegLon : ℚ) (fuel innerFuel : ℕ) (cache : Cache)
      (sdkAvailable : Bool) (net : ℕ → NetOutcome) (run : SearchRun),
      findPanoramas sourceAvailable hasApiKey polygonCoords west south east north
        mPerDegLon fuel innerFuel cache sdkAvailable net = some run →
      run.issueDelays = List.replicate run.liveCalls 0) := by
  constructor
  · intro last now h
    unfold rateLimiterGrant
    omega
  · intro sourceAvailable hasApiKey polygonCoords west south east north mPerDegLon
      fuel innerFuel cache sdkAvailable net run hrun
    unfold findPanoramas at hrun
    split_ifs at hrun with h1 h2
    · obtain rfl := Option.some.inj hrun
      rfl
    · obtain rfl := Option.some.inj hrun
      rfl
    · split at hrun
      · exact absurd hrun (by simp)
      · obtain rfl := Option.some.inj hrun
        rfl

/-- The inner scan only ever appends points that passed `pointInPolygon`. -/
theorem scanRow_mem (polygon : List (ℚ × ℚ)) (lat east stepLon : ℚ) (maxPoints : ℕ) :
    ∀ (fuel : ℕ) (lon : ℚ) (grid : List (ℚ × ℚ)) (r : List (ℚ × ℚ) × Bool),
      (∀ p ∈ grid, pointInPolygon p polygon = true) →
      scanRow polygon lat east stepLon maxPoints fuel lon grid = some r →
      ∀ p ∈ r.1, pointInPolygon p polygon = true := by
  intro fuel
  induction fuel with
  | zero =>
    intro lon grid r h hr
    exact absurd hr (by simp [scanRow])
  | succ f ih =>
    intro lon grid r h hr
    simp only [scanRow] at hr
    split_ifs at hr with hle hpip hcap
    · obtain rfl := Option.some.inj hr
      intro p hp
      rcases List.mem_append.mp hp with hin | hin
      · exact h p hin
      · have : p = (lon, lat) := by simpa using hin
        subst this
        exact hpip
    · refine ih _ _ _ ?_ hr
      intro p hp
      rcases List.mem_append.mp hp with hin | hin
      · exact h p hin
      · have : p = (lon, lat) := by simpa using hin
        subst this
        exact hpip
    · exact ih _ _ _ h hr
    · obtain rfl := Option.some.inj hr
      exact h

/-- The outer scan only ever delivers points that passed `pointInPolygon`. -/
theorem scanRows_mem (polygon : List (ℚ × ℚ)) (north west east stepLat stepLon : ℚ)
    (maxPoints innerFuel : ℕ) :
    ∀ (fuel : ℕ) (lat : ℚ) (grid : List (ℚ × ℚ)) (g : List (ℚ × ℚ)),
      (∀ p ∈ grid, pointInPolygon p polygon = true) →
      scanRows polygon north west east stepLat stepLon maxPoints innerFuel
        fuel lat grid = some g →
      ∀ p ∈ g, pointInPolygon p polygon = true := by
  intro fuel
  induction fuel with
  | zero =>
    intro lat grid g h hg
    exact absurd hg (by simp [scanRows])
  | succ f ih =>
    intro lat grid g h hg
    simp only [scanRows] at hg
    split_ifs at hg with hle
    · split at hg
      · exact absurd hg (by simp)
      · next grid2 heq =>
        obtain rfl := Option.some.inj hg
        exact scanRow_mem polygon lat east stepLon maxPoints innerFuel _ _ _ h heq
      · next grid2 heq =>
        exact ih _ _ _ (scanRow_mem polygon lat east stepLon maxPoints innerFuel _ _ _ h heq) hg
    · obtain rfl := Option.some.inj hg
      exact h

/-- The inner scan keeps the accumulated grid within the cap (given room to
start with), and a row that did not trigger the cap leaves room. -/
theorem scanRow_len (polygon : List (ℚ × ℚ)) (lat east stepLon : ℚ) (maxPoints : ℕ) :
    ∀ (fuel : ℕ) (lon : ℚ) (grid : List (ℚ × ℚ)) (r : List (ℚ × ℚ) × Bool),
      grid.length < maxPoints →
      scanRow polygon lat east stepLon maxPoints fuel lon grid = some r →
      r.1.length ≤ maxPoints ∧ (r.2 = false → r.1.length < maxPoints) := by
  intro fuel
  induction fuel with
  | zero =>
    intro lon grid r h hr
    exact absurd hr (by simp [scanRow])
  | succ f ih =>
    intro lon grid r h hr
    simp only [scanRow] at hr
    split_ifs at hr with hle hpip hcap
    · obtain rfl := Option.some.inj hr
      constructor
      · simpa using h
      · intro hfalse
        exact absurd hfalse (by simp)
    · refine ih _ _ _ ?_ hr
      simp only [List.length_append, List.length_singleton] at hcap ⊢
      omega
    · exact ih _ _ _ h hr
    · obtain rfl := Option.some.inj hr
      exact ⟨le_of_lt h, fun _ => h⟩

/-- The outer scan never delivers more than `maxPoints` points, given room to
start with. -/
theorem scanRows_len (polygon : List (ℚ × ℚ)) (north west east stepLat stepLon : ℚ)
    (maxPoints innerFuel : ℕ) :
    ∀ (fuel : ℕ) (lat : ℚ) (grid : List (ℚ × ℚ)) (g : List (ℚ × ℚ)),
      grid.length < maxPoints →
      scanRows polygon north west east stepLat stepLon maxPoints innerFuel
        fuel lat grid = some g →
      g.length ≤ maxPoints := by
  intro fuel
  induction fuel with
  | zero =>
    intro lat grid g h hg
    exact absurd hg (by simp [scanRows])
  | succ f ih =>
    intro lat grid g h hg
    simp only [scanRows] at hg
    split_ifs at hg with hle
    · split at hg
      · exact absurd hg (by simp)
      · next grid2 heq =>
        obtain rfl := Option.some.inj hg
        exact (scanRow_len polygon lat east stepLon maxPoints innerFuel _ _ _ h heq).1
      · next grid2 heq =>
        exact ih _ _ _
          ((scanRow_len polygon lat east stepLon maxPoints innerFuel _ _ _ h heq).2 rfl) hg
    · obtain rfl := Option.some.inj hg
      exact le_of_lt h


/-- C6: every grid point produced by the generator satisfies
`pointInPolygon`; no candidate outside the polygon is appended. -/
theorem C6_grid_inside_polygon (polygonCoords : List (ℚ × ℚ))
    (west south east north mPerDegLon spacingMeters : ℚ) (maxPoints fuel innerFuel : ℕ)
    (g : List (ℚ × ℚ))
    (hg : generateComprehensivePointsInPolygon polygonCoords west south east north
      mPerDegLon spacingMeters maxPoints fuel innerFuel = some g) :
    ∀ p ∈ g, pointInPolygon p polygonCoords = true := by
  unfold generateComprehensivePointsInPolygon at hg
  exact scanRows_mem polygonCoords north west east _ _ maxPoints innerFuel fuel _ _ _
    (by simp) hg

/-- Witness for C6: the 16-point grid of the unit square, every point of
which passes the polygon test. -/
theorem C6_grid_inside_polygon_witness :
    pointInPolygon ((1 : ℚ)/8, (1 : ℚ)/8) unitSquare = true :=
  C6_grid_inside_polygon unitSquare 0 0 1 1 111000 27750 4000 9 9
    [(1/8, 1/8), (3/8, 1/8), (5/8, 1/8), (7/8, 1/8),
     (1/8, 3/8), (3/8, 3/8), (5/8, 3/8), (7/8, 3/8),
     (1/8, 5/8), (3/8, 5/8), (5/8, 5/8), (7/8, 5/8),
     (1/8, 7/8), (3/8, 7/8), (5/8, 7/8), (7/8, 7/8)]
    (by decide) (1/8, 1/8) (by decide)

/-- Counterexample to C7: with cap `maxPoints = 0` the generator returns one
point, exceeding the cap, because the source checks `grid.length >= maxPoints`
only after pushing a candidate. -/
theorem C7_counterexample :
    generateComprehensivePointsInPolygon unitSquare 0 0 1 1 111000 27750 0 9 9 =
      some [(1/8, 1/8)] ∧
    ¬([((1 : ℚ)/8, (1 : ℚ)/8)].length ≤ 0) := by
  decide

/-- C7 amended: for every cap `maxPoints ≥ 1` the generated grid has length
at most `maxPoints` (generation returns as soon as the cap is reached; the
bound fails only for the degenerate cap `0`, where the first accepted
candidate is still returned). -/
theorem C7_cap_respected (polygonCoords : List (ℚ × ℚ))
    (west south east north mPerDegLon spacingMeters : ℚ) (maxPoints fuel innerFuel : ℕ)
    (g : List (ℚ × ℚ)) (hcap : 1 ≤ maxPoints)
    (hg : generateComprehensivePointsInPolygon polygonCoords west south east north
      mPerDegLon spacingMeters maxPoints fuel innerFuel = some g) :
    g.length ≤ maxPoints := by
  unfold generateComprehensivePointsInPolygon at hg
  exact scanRows_len polygonCoords north west east _ _ maxPoints innerFuel fuel _ _ _
    (by simpa using hcap) hg

/-- Witness for C7 amended: the one-point `sqSmall` grid respects the cap
4000. -/
theorem C7_cap_respected_witness :
    ([((1 : ℚ)/14800, (1 : ℚ)/14800)] : List (ℚ × ℚ)).length ≤ 4000 :=
  C7_cap_respected sqSmall 0 0 (1/7000) (1/7000) 111000 15 4000 5 5
    [(1/14800, 1/14800)] (by decide) (by decide)

/-- With a positive longitude step, the inner scan terminates once given
fuel exceeding the number of remaining steps to `east`. -/
theorem scanRow_terminates (polygon : List (ℚ × ℚ)) (lat east stepLon : ℚ)
    (maxPoints : ℕ) (hstep : 0 < stepLon) :
    ∀ (n : ℕ) (lon : ℚ) (grid : List (ℚ × ℚ)) (fuel : ℕ),
      (east - lon) / stepLon < (n : ℚ) → n < fuel →
      ∃ r, scanRow polygon lat east stepLon maxPoints fuel lon grid = some r := by
  intro n
  induction n with
  | zero =>
    intro lon grid fuel hq hf
    obtain ⟨f, rfl⟩ : ∃ f, fuel = f + 1 := ⟨fuel - 1, by omega⟩
    have hlon : ¬(lon ≤ east) := by
      intro hle
      have h2 : (0 : ℚ) ≤ (east - lon) / stepLon :=
        div_nonneg (by linarith) (le_of_lt hstep)
      push_cast at hq
      linarith
    simp only [scanRow]
    rw [if_neg hlon]
    exact ⟨(grid, false), rfl⟩
  | succ m ih =>
    intro lon grid fuel hq hf
    obtain ⟨f, rfl⟩ : ∃ f, fuel = f + 1 := ⟨fuel - 1, by omega⟩
    have hne : stepLon ≠ 0 := ne_of_gt hstep
    have hq2 : (east - (lon + stepLon)) / stepLon < (m : ℚ) := by
      rw [show east - (lon + stepLon) = east - lon - stepLon by ring, sub_div,
        div_self hne]
      push_cast at hq
      linarith
    simp only [scanRow]
    by_cases hle : lon ≤ east
    · rw [if_pos hle]
      split_ifs with hpip hcap
      · exact ⟨_, rfl⟩
      · exact ih _ _ f hq2 (by omega)
      · exact ih _ _ f hq2 (by omega)
    · rw [if_neg hle]
      exact ⟨(grid, false), rfl⟩

/-- With a positive latitude step and terminating rows, the outer scan
terminates once given fuel exceeding the number of remaining steps to
`north`. -/
theorem scanRows_terminates (polygon : List (ℚ × ℚ))
    (north west east stepLat stepLon : ℚ) (maxPoints innerFuel : ℕ)
    (hstep : 0 < stepLat)
    (hinner : ∀ (lat : ℚ) (grid : List (ℚ × ℚ)),
      ∃ r, scanRow polygon lat east stepLon maxPoints innerFuel
        (west + stepLon / 2) grid = some r) :
    ∀ (n : ℕ) (lat : ℚ) (grid : List (ℚ × ℚ)) (fuel : ℕ),
      (north - lat) / stepLat < (n : ℚ) → n < fuel →
      ∃ g, scanRows polygon north west east stepLat stepLon maxPoints innerFuel
        fuel lat grid = some g := by
  intro n
  induction n with
  | zero =>
    intro lat grid fuel hq hf
    obtain ⟨f, rfl⟩ : ∃ f, fuel = f + 1 := ⟨fuel - 1, by omega⟩
    have hlat : ¬(lat ≤ north) := by
      intro hle
      have h2 : (0 : ℚ) ≤ (north - lat) / stepLat :=
        div_nonneg (by linarith) (le_of_lt hstep)
      push_cast at hq
      linarith
    simp only [scanRows]
    rw [if_neg hlat]
    exact ⟨grid, rfl⟩
  | succ m ih =>
    intro lat grid fuel hq hf
    obtain ⟨f, rfl⟩ : ∃ f, fuel = f + 1 := ⟨fuel - 1, by omega⟩
    have hne : stepLat ≠ 0 := ne_of_gt hstep
    have hq2 : (north - (lat + stepLat)) / stepLat < (m : ℚ) := by
      rw [show north - (lat + stepLat) = north - lat - stepLat by ring, sub_div,
        div_self hne]
      push_cast at hq
      linarith
    simp only [scanRows]
    by_cases hle : lat ≤ north
    · rw [if_pos hle]
      obtain ⟨r, hr⟩ := hinner lat grid
      rw [hr]
      obtain ⟨g2, b⟩ := r
      cases b with
      | true => exact ⟨g2, rfl⟩
      | false => exact ih _ _ f hq2 (by omega)
    · rw [if_neg hle]
      exact ⟨grid, rfl⟩


/-- Points strictly to the left of the unit square are outside it (at height
`1/2`): the horizontal ray crosses both vertical edges, toggling `inside`
twice. -/
theorem pip_left_unitSquare (x : ℚ) (hx : x < 0) :
    pointInPolygon (x, 1/2) unitSquare = false := by
  simp only [pointInPolygon, unitSquare, List.zip, List.zipWith, List.getLastD,
    List.dropLast, List.foldl]
  norm_num
  rw [if_pos (show x < (1 : ℚ) by linarith)]
  exact hx

/-- With a non-positive longitude step, a row of the unit square entered left
of the polygon never terminates: the scan position never advances past
`east`, never accepts a point (so the cap can never fire), and exhausts any
amount of fuel. -/
theorem scanRow_diverges (stepLon : ℚ) (hstep : stepLon ≤ 0) (maxPoints : ℕ) :
    ∀ (fuel : ℕ) (lon : ℚ) (grid : List (ℚ × ℚ)), lon < 0 →
      scanRow unitSquare (1/2) 1 stepLon maxPoints fuel lon grid = none := by
  intro fuel
  induction fuel with
  | zero => intro lon grid hlon; rfl
  | succ f ih =>
    intro lon grid hlon
    simp only [scanRow]
    rw [if_pos (show lon ≤ (1 : ℚ) by linarith)]
    rw [if_neg (show ¬(pointInPolygon (lon, 1/2) unitSquare = true) from by
      rw [pip_left_unitSquare lon hlon]; simp)]
    exact ih (lon + stepLon) grid (by linarith)

/-- The grid generator run on the unit square with `mPerDegLon = -111000`
(the meters-per-degree factor a center latitude beyond ±90° would produce)
has `stepLon = -1 < 0`, and no amount of fuel completes it. -/
theorem generate_diverges (fuel innerFuel maxPoints : ℕ) :
    generateComprehensivePointsInPolygon unitSquare 0 0 1 1 (-111000) 111000
      maxPoints fuel innerFuel = none := by
  show scanRows unitSquare 1 0 1 ((111000 : ℚ) / 111000) ((111000 : ℚ) / (-111000))
    maxPoints innerFuel fuel (0 + ((111000 : ℚ) / 111000) / 2) [] = none
  rw [show (111000 : ℚ) / 111000 = 1 by norm_num,
    show (111000 : ℚ) / (-111000) = -1 by norm_num]
  cases fuel with
  | zero => rfl
  | succ f =>
    simp only [scanRows]
    rw [if_pos (show (0 : ℚ) + 1 / 2 ≤ 1 by norm_num)]
    rw [show (0 : ℚ) + 1 / 2 = 1 / 2 by norm_num]
    rw [scanRow_diverges (-1) (by norm_num) maxPoints innerFuel (0 + (-1) / 2) []
      (by norm_num)]

/-- For a center latitude strictly between -90° and 90°, the source's
`metersPerDegLon = 111000 * Math.cos(centerLat * π / 180)` is strictly
positive. -/
theorem cos_center_lat_pos (θ : ℝ) (h1 : -90 < θ) (h2 : θ < 90) :
    0 < 111000 * Real.cos (θ * Real.pi / 180) := by
  have hπ := Real.pi_pos
  have hl : -(Real.pi / 2) < θ * Real.pi / 180 := by
    have h := mul_pos (show (0 : ℝ) < θ + 90 by linarith) hπ
    rw [show (θ + 90) * Real.pi = θ * Real.pi + 90 * Real.pi by ring] at h
    linarith
  have hr : θ * Real.pi / 180 < Real.pi / 2 := by
    have h := mul_pos (show (0 : ℝ) < 90 - θ by linarith) hπ
    rw [show (90 - θ) * Real.pi = 90 * Real.pi - θ * Real.pi by ring] at h
    linarith
  exact mul_pos (by norm_num) (Real.cos_pos_of_mem_Ioo ⟨hl, hr⟩)

/-- With positive spacing and a positive meters-per-degree-longitude factor,
both steps are positive and some fuel completes both grid loops. -/
theorem generate_terminates (polygonCoords : List (ℚ × ℚ))
    (west south east north mPerDegLon spacingMeters : ℚ) (maxPoints : ℕ)
    (hsp : 0 < spacingMeters) (hmpd : 0 < mPerDegLon) :
    ∃ fuel innerFuel g,
      generateComprehensivePointsInPolygon polygonCoords west south east north
        mPerDegLon spacingMeters maxPoints fuel innerFuel = some g := by
  have hlon : 0 < spacingMeters / mPerDegLon := div_pos hsp hmpd
  have hlat : 0 < spacingMeters / 111000 := div_pos hsp (by norm_num)
  set stepLon := spacingMeters / mPerDegLon with hsl
  set stepLat := spacingMeters / 111000 with hst
  set qi := (east - (west + stepLon / 2)) / stepLon with hqi
  set ni := Nat.ceil qi + 1 with hni
  have hq_i : qi < ((ni : ℕ) : ℚ) := by
    rw [hni]
    push_cast
    linarith [Nat.le_ceil qi]
  have hinner : ∀ (lat : ℚ) (grid : List (ℚ × ℚ)),
      ∃ r, scanRow polygonCoords lat east stepLon maxPoints (ni + 1)
        (west + stepLon / 2) grid = some r :=
    fun lat grid => scanRow_terminates polygonCoords lat east stepLon maxPoints hlon
      ni (west + stepLon / 2) grid (ni + 1) hq_i (Nat.lt_succ_self ni)
  set qo := (north - (south + stepLat / 2)) / stepLat with hqo
  set no := Nat.ceil qo + 1 with hno
  have hq_o : qo < ((no : ℕ) : ℚ) := by
    rw [hno]
    push_cast
    linarith [Nat.le_ceil qo]
  obtain ⟨g, hg⟩ := scanRows_terminates polygonCoords north west east stepLat stepLon
    maxPoints (ni + 1) hlat hinner no (south + stepLat / 2) [] (no + 1) hq_o
    (Nat.lt_succ_self no)
  exact ⟨no + 1, ni + 1, g, hg⟩

/-- C10: the grid generator terminates whenever `spacingMeters > 0` and the
meters-per-degree-longitude factor is positive — which is exactly what a
bounding-box center latitude strictly between -90° and 90° yields, since
`111000 · cos(centerLat·π/180) > 0` there; and the precondition is necessary:
with a non-positive longitude step the inner scan loop runs forever (no
amount of fuel completes it), as the concrete negative-factor run shows. -/
theorem C10_grid_termination :
    (∀ (polygonCoords : List (ℚ × ℚ)) (west south east north mPerDegLon
        spacingMeters : ℚ) (maxPoints : ℕ),
      0 < spacingMeters → 0 < mPerDegLon →
      ∃ fuel innerFuel g,
        generateComprehensivePointsInPolygon polygonCoords west south east north
          mPerDegLon spacingMeters maxPoints fuel innerFuel = some g) ∧
    (∀ θ : ℝ, -90 < θ → θ < 90 → 0 < 111000 * Real.cos (θ * Real.pi / 180)) ∧
    (∀ fuel innerFuel maxPoints : ℕ,
      generateComprehensivePointsInPolygon unitSquare 0 0 1 1 (-111000) 111000
        maxPoints fuel innerFuel = none) :=
  ⟨fun polygonCoords west south east north mPerDegLon spacingMeters maxPoints hsp
      hmpd => generate_terminates polygonCoords west south east north mPerDegLon
      spacingMeters maxPoints hsp hmpd,
   cos_center_lat_pos,
   generate_diverges⟩

/-- Witness for C10: termination on the concrete unit-square configuration, a
concrete positive cosine factor, and the concrete diverging run. -/
theorem C10_grid_termination_witness :
    (∃ fuel innerFuel g,
      generateComprehensivePointsInPolygon unitSquare 0 0 1 1 111000 27750 4000
        fuel innerFuel = some g) ∧
    0 < 111000 * Real.cos (45 * Real.pi / 180) ∧
    generateComprehensivePointsInPolygon unitSquare 0 0 1 1 (-111000) 111000
      4000 3 3 = none :=
  ⟨C10_grid_termination.1 unitSquare 0 0 1 1 111000 27750 4000 (by norm_num)
      (by norm_num),
   C10_grid_termination.2.1 45 (by norm_num) (by norm_num),
   C10_grid_termination.2.2 3 3 4000⟩

/-- Witness for C9 amended: both conjuncts at concrete inputs — the limiter
grant spacing at `last = now = 0`, and the all-zero delays of the six-call
burst. -/
theorem C9_rate_limiter_unused_witness :
    0 + 200 ≤ rateLimiterGrant 0 0 ∧
    ({ outcome := SearchOutcome.completed [] 0, liveCalls := 6,
       issueDelays := [0, 0, 0, 0, 0, 0] } : SearchRun).issueDelays =
      List.replicate 6 0 :=
  ⟨C9_rate_limiter_unused.1 0 0 (Nat.le_refl 0),
   C9_rate_limiter_unused.2 true true sq6 0 0 (1/7400) (1/7400) 666000 5 10 [] true
     (fun _ => NetOutcome.err) _ (by decide)⟩

end
